import Mathlib

/-!
Verification development for the ChainPort repository: a Solana devnet
wallet demo (four near-duplicate React files).  The definitions below are a
shallow embedding of the handlers and of the confirmation-retry helper:

* `confirmTransactionWithRetry` / `confirmLoopF` embed the helper of
  `src/unnamed/part_000` lines 221-262 (fixed `startTime`, a `while` loop
  guarded by `Date.now() - startTime < timeout`, string-matched retry on
  expired blockhashes, `'success'` / `'timeout'` results, rethrow on fatal
  errors).  The network is an oracle: `att n` is the outcome of the n-th
  `connection.confirmTransaction` call, `leases n` the n-th replacement
  blockhash fetched by `getLatestBlockhash`, and `dur n` the wall-clock
  milliseconds consumed by the n-th attempt (the `retryInterval` sleep is
  added separately, exactly as in the source).  The loop is written with a
  fuel argument so that it stays executable; the top-level entry point uses
  `timeout + 1` fuel, which is proved sufficient whenever the retry
  interval is positive.
* `sendLoop1` embeds the bounded-retry transfer loop of
  `src/unnamed/part_001` lines 175-237.
* `handleSend`, `handleSendPrompt`, `requestAirdrop`, `handleSignMessage`
  embed the UI event handlers as functions from validated inputs and a
  network oracle to the list of observable events they perform (alerts,
  state writes, network calls).
* `getBalanceSol`, `transferLamports`, `transferLamportsDirect` embed the
  SOL/lamports conversions, over exact rationals.
* `manualHex` and `bufferHex` embed the two hex encodings of a signature.
-/

/-- Chars-level test that `pat` is an initial segment of `s`
(used to embed JavaScript `String.prototype.includes`). -/
def strHeadMatches : List Char → List Char → Bool
  | [], _ => true
  | _ :: _, [] => false
  | a :: as, b :: bs => a == b && strHeadMatches as bs

/-- Chars-level substring search: does `pat` occur contiguously in `s`? -/
def strFindSub : List Char → List Char → Bool
  | pat, [] => pat.isEmpty
  | pat, b :: rest => strHeadMatches pat (b :: rest) || strFindSub pat rest

/-- Embedding of JavaScript `s.includes(pat)`. -/
def strContains (s pat : String) : Bool :=
  strFindSub pat.data s.data

/-- The retry classification of `confirmTransactionWithRetry`
(`src/unnamed/part_000` lines 246-247): an error is handled as an expired
blockhash exactly when its message contains `'Blockhash not found'` or
`'blockhash expired'`. -/
def isRetryable (m : String) : Bool :=
  strContains m "Blockhash not found" || strContains m "blockhash expired"

/-- A blockhash lease: the `blockhash` string together with
`lastValidBlockHeight`, as returned by `getLatestBlockhash`. -/
structure Lease where
  blockhash : String
  lastValidBlockHeight : Nat
  deriving DecidableEq

/-- Outcome of one `connection.confirmTransaction` call:
either it resolves (carrying `confirmation.value.err`, `none` for a clean
confirmation) or it rejects with an error whose message is `msg`. -/
inductive Attempt where
  | confirmed (err : Option String)
  | threw (msg : String)
  deriving DecidableEq

/-- Holds (as `true`) exactly when the attempt outcome is a thrown error that the
helper classifies as an expired blockhash. -/
def attemptRetryable : Attempt → Bool
  | .confirmed _ => false
  | .threw m => isRetryable m

/-- Result of the confirmation helper: the `'success'` return, the
`'timeout'` return, or a rethrown error with message `msg`. -/
inductive ConfirmResult where
  | success
  | timeout
  | fatal (msg : String)
  deriving DecidableEq

/-- Network calls observable in a run of the transfer code. -/
inductive NetOp where
  | fetchBlockhash
  | sendTx
  | confirmPoll (lease : Lease)
  | confirmSig
  | airdropReq
  | balanceReq
  | signReq
  deriving DecidableEq

/-- Holds (as `true`) exactly on a transaction (re)submission. -/
def isSendOp : NetOp → Bool
  | .sendTx => true
  | _ => false

/-- Holds (as `true`) exactly on a confirmation poll. -/
def isPollOp : NetOp → Bool
  | .confirmPoll _ => true
  | _ => false

/-- The `while` loop of `confirmTransactionWithRetry`
(`src/unnamed/part_000` lines 231-259), with fuel.  State: `n` is the index
of the next confirmation attempt, `lease` the current blockhash lease, and
`elapsed` the value of `Date.now() - startTime` at the loop guard.  Each
iteration polls once (`NetOp.confirmPoll`); a clean confirmation returns
`'success'`; `confirmation.value.err` raises `Error('Transaction failed')`
which the catch rethrows (its message matches no retry substring); a thrown
message matching a retry substring fetches one replacement lease
(`NetOp.fetchBlockhash`) and loops after the `retryInterval` sleep; any
other thrown message is rethrown.  When the guard fails the helper returns
`'timeout'`.  The trace records the network calls of the remaining
iterations. -/
def confirmLoopF (att : Nat → Attempt) (leases : Nat → Lease) (dur : Nat → Nat)
    (timeout ri : Nat) :
    Nat → Nat → Lease → Nat → Option (ConfirmResult × List NetOp)
  | 0, n, lease, elapsed =>
    if elapsed < timeout then
      match att n with
      | .confirmed none => some (.success, [.confirmPoll lease])
      | .confirmed (some _) =>
        if isRetryable "Transaction failed" then none
        else some (.fatal "Transaction failed", [.confirmPoll lease])
      | .threw m =>
        if isRetryable m then none
        else some (.fatal m, [.confirmPoll lease])
    else some (.timeout, [])
  | f + 1, n, lease, elapsed =>
    if elapsed < timeout then
      match att n with
      | .confirmed none => some (.success, [.confirmPoll lease])
      | .confirmed (some _) =>
        if isRetryable "Transaction failed" then
          (confirmLoopF att leases dur timeout ri f (n + 1) (leases n)
              (elapsed + dur n + ri)).map
            (fun r => (r.1, .confirmPoll lease :: .fetchBlockhash :: r.2))
        else some (.fatal "Transaction failed", [.confirmPoll lease])
      | .threw m =>
        if isRetryable m then
          (confirmLoopF att leases dur timeout ri f (n + 1) (leases n)
              (elapsed + dur n + ri)).map
            (fun r => (r.1, .confirmPoll lease :: .fetchBlockhash :: r.2))
        else some (.fatal m, [.confirmPoll lease])
    else some (.timeout, [])

/-- Embedding of `confirmTransactionWithRetry` (`src/unnamed/part_000` lines 221-262):
enters the loop with `startTime` just taken (`elapsed = 0`), the lease the
caller fetched, and attempt index 0.  The source defaults are
`timeout = 60000` and `retryInterval = 2000`.  Fuel `timeout + 1` is
sufficient for every positive retry interval. -/
def confirmTransactionWithRetry (att : Nat → Attempt) (leases : Nat → Lease)
    (dur : Nat → Nat) (lease : Lease) (timeout ri : Nat) :
    Option (ConfirmResult × List NetOp) :=
  confirmLoopF att leases dur timeout ri (timeout + 1) 0 lease 0

/-- Number of confirmation polls in a helper run (0 if fuel ran out). -/
def pollCount : Option (ConfirmResult × List NetOp) → Nat
  | none => 0
  | some (_, ops) => ops.countP (fun o => isPollOp o)

-- concrete oracles used by witnesses and counterexamples
/-- First attempt throws `'Blockhash not found'`, all later ones confirm. -/
def att1 : Nat → Attempt :=
  fun k => if k = 0 then .threw "Blockhash not found" else .confirmed none

/-- Every attempt throws `'blockhash expired'`. -/
def attAllExpired : Nat → Attempt :=
  fun _ => .threw "blockhash expired"

/-- Every attempt throws a message that matches no retry substring. -/
def attFatal : Nat → Attempt :=
  fun _ => .threw "custom program error: 0x1"

/-- The lease the transfer handler fetched before submitting. -/
def lease1 : Lease := ⟨"BH1", 100⟩

/-- The replacement lease returned by every `getLatestBlockhash` call. -/
def lease2 : Lease := ⟨"BH2", 200⟩

/-- Constant replacement-lease oracle. -/
def constLease : Nat → Lease := fun _ => lease2

/-- Attempts that take no measurable wall-clock time. -/
def zeroDur : Nat → Nat := fun _ => 0

/-- Confirmation oracle whose first attempt throws `m` and whose later
attempts confirm cleanly. -/
def oneErrAtt (m : String) : Nat → Attempt :=
  fun k => if k = 0 then .threw m else .confirmed none

/-- Iteration oracle for the bounded-retry loop whose first iteration
throws `m` and whose later iterations succeed. -/
def oneErrSend (m : String) : Nat → Option String :=
  fun i => if i = 0 then some m else none

/-- Outcome surfaced to the user by the bounded-retry transfer handler of
`src/unnamed/part_001`: the success alert, the failure path (`setError`
plus the failure alert, carrying the error message), or nothing at all. -/
inductive Surfaced where
  | successAlert
  | failureAlert (m : String)
  | silent
  deriving DecidableEq

/-- The `while (retries > 0)` loop of `handleSend` in `src/unnamed/part_001`
lines 179-222.  `att i` is the outcome of the i-th iteration's sequence of
calls (`none`: the transfer confirmed cleanly and the success alert fires;
`some m`: some call threw an error with message `m`; a failed confirmation,
`confirmation.value.err`, throws `'Transaction confirmation failed'`).  A
thrown message containing `'Blockhash'` decrements `retries` and loops
(the `retries > 0` conjunct of the catch condition always holds inside the
loop body); any other message propagates to the outer catch, which calls
`setError` and the failure alert.  When the guard `retries > 0` fails, the
function falls out of the `try` block and returns through `finally` with
nothing surfaced. -/
def sendLoop1 (att : Nat → Option String) : Nat → Nat → Surfaced
  | 0, _ => .silent
  | r + 1, i =>
    match att i with
    | none => .successAlert
    | some m =>
      if strContains m "Blockhash" then sendLoop1 att r (i + 1)
      else .failureAlert m

/-- Embedding of `handleSend` of `src/unnamed/part_001`: it enters the retry loop with
`retries = 3` (line 176). -/
def handleSendBounded (att : Nat → Option String) : Surfaced :=
  sendLoop1 att 3 0

/-- A JavaScript error as the transfer handler's catch block sees it:
its message, and — when it is a `SendTransactionError` — its `logs` field
(`none` models an `undefined` field). -/
structure JsError where
  message : String
  steLogs : Option (Option (List String))

/-- The catch block of `handleSend` in `src/unnamed/part_000` lines
204-214: `errorMessage` starts as `'Transaction failed'` and is replaced by
`Error: <message>\nLogs: <logs or 'No logs available'>` exactly when the
error is a `SendTransactionError` (an empty or missing `logs` array is
falsy, so it also yields `'No logs available'`). -/
def errorMessageFor (e : JsError) : String :=
  match e.steLogs with
  | none => "Transaction failed"
  | some logs =>
    "Error: " ++ e.message ++ "\n" ++ "Logs: " ++
      (match logs with
       | some (l :: ls) => String.intercalate "\n" (l :: ls)
       | _ => "No logs available")

/-- Observable events of a handler run: alerts, React state writes, and
network calls. -/
inductive SendEvent where
  | alertMsg (s : String)
  | setLoading (b : Bool)
  | setError (e : Option String)
  | setBalance (v : ℚ)
  | setSignature (s : String)
  | net (op : NetOp)

/-- The `setLoading` writes of an event list, in order. -/
def loadVal : SendEvent → Option Bool
  | .setLoading b => some b
  | _ => none

/-- The `setLoading` writes of an event list, in order. -/
def loadingWrites (evs : List SendEvent) : List Bool :=
  evs.filterMap loadVal

/-- The network calls of an event list, in order. -/
def netVal : SendEvent → Option NetOp
  | .net op => some op
  | _ => none

/-- The network calls of an event list, in order. -/
def networkCalls (evs : List SendEvent) : List NetOp :=
  evs.filterMap netVal

/-- Network oracle for `handleSend` of `src/unnamed/part_000`:
the lease produced by the initial `getLatestBlockhash` (or the message it
throws with), the outcome of `sendTransaction`, and the confirmation
oracles handed to `confirmTransactionWithRetry`. -/
structure SendEnv where
  bhErr : Option String
  lease0 : Lease
  sendRes : Except JsError String
  att : Nat → Attempt
  leases : Nat → Lease
  dur : Nat → Nat

/-- The try/catch part of `handleSend` in `src/unnamed/part_000` lines
171-214: the initial blockhash fetch, the wallet submission, then
`confirmTransactionWithRetry` with the source defaults 60000/2000;
`'success'` alerts with the signature, any other outcome reaches the catch
block (a `'timeout'` result makes the handler throw
`Error('Transaction confirmation timed out')`, and a rethrown confirmation
error arrives with its own message), which stores the computed error
message. -/
def handleSendTryBody (env : SendEnv) : List SendEvent :=
  .net .fetchBlockhash ::
  (match env.bhErr with
   | some m => [.setError (some (errorMessageFor ⟨m, none⟩))]
   | none =>
     .net .sendTx ::
     (match env.sendRes with
      | .error e => [.setError (some (errorMessageFor e))]
      | .ok sig =>
        match confirmTransactionWithRetry env.att env.leases env.dur
            env.lease0 60000 2000 with
        | some (.success, ops) =>
          ops.map SendEvent.net ++
            [.alertMsg ("✅ Success! Transaction signature: " ++ sig)]
        | some (.timeout, ops) =>
          ops.map SendEvent.net ++
            [.setError (some (errorMessageFor
              ⟨"Transaction confirmation timed out", none⟩))]
        | some (.fatal m, ops) =>
          ops.map SendEvent.net ++
            [.setError (some (errorMessageFor ⟨m, none⟩))]
        | none => []))

/-- Embedding of `handleSend` of `src/unnamed/part_000` lines 148-218.  Inputs:
`pk` — whether a wallet is connected; `amountP` — the result of
`parseFloat(sendAmount)` (`none` for `NaN`); `toValid` — whether
`new PublicKey(toAddress)` succeeds.  The validations run in source order
and each failure alerts and returns before `setLoading(true)`; the main
path runs `setLoading(true)`, `setError(null)`, the try/catch body, and the
`finally` clause `setLoading(false)`. -/
def handleSend (pk : Bool) (amountP : Option ℚ) (toValid : Bool)
    (env : SendEnv) : List SendEvent :=
  if pk = false then [.alertMsg "Please connect your wallet."]
  else
    match amountP with
    | none => [.alertMsg "Please enter a valid amount greater than 0."]
    | some a =>
      if a ≤ 0 then [.alertMsg "Please enter a valid amount greater than 0."]
      else if toValid = false then [.alertMsg "Invalid recipient address."]
      else
        [.setLoading true, .setError none] ++ handleSendTryBody env ++
          [.setLoading false]

/-- Network oracle for the prompt-based `handleSend` of `src/src/App.jsx`:
outcome of `getRecentBlockhash`, of `sendTransaction`, and of the single
`confirmTransaction(signature, 'confirmed')` call. -/
structure SendPromptEnv where
  bhErr : Option String
  sendRes : Except String String
  confirmErr : Option String

/-- The try/catch part of `handleSend` in `src/src/App.jsx` lines 151-171:
fetch a recent blockhash, submit, confirm once, and alert on success; any
thrown error reaches the catch block (`setError('Transaction failed')` and
the failure alert).  The interpolated amount/recipient of the success alert
are elided. -/
def handleSendPromptTryBody (env : SendPromptEnv) : List SendEvent :=
  .net .fetchBlockhash ::
  (match env.bhErr with
   | some _ => [.setError (some "Transaction failed"),
                .alertMsg "Transaction failed. Please try again."]
   | none =>
     .net .sendTx ::
     (match env.sendRes with
      | .error _ => [.setError (some "Transaction failed"),
                     .alertMsg "Transaction failed. Please try again."]
      | .ok _ =>
        .net .confirmSig ::
        (match env.confirmErr with
         | some _ => [.setError (some "Transaction failed"),
                      .alertMsg "Transaction failed. Please try again."]
         | none => [.alertMsg "Successfully sent SOL"])))

/-- Embedding of `handleSend` of `src/src/App.jsx` lines 120-174 (the prompt-based
variant, identical in `src/unnamed/part_002` lines 149-201), assembled
from the validations (in source order, each returning before
`setLoading(true)`) and the try/catch body `handleSendPromptTryBody`. -/
def handleSendPrompt (pk : Bool) (toP : Option String) (toValid : Bool)
    (amountP : Option ℚ) (env : SendPromptEnv) : List SendEvent :=
  if pk = false then [.alertMsg "Please connect your wallet first."]
  else
    match toP with
    | none => [.alertMsg "Recipient address is required"]
    | some t =>
      if t = "" then [.alertMsg "Recipient address is required"]
      else if toValid = false then [.alertMsg "Invalid recipient address"]
      else
        match amountP with
        | none => [.alertMsg "Please enter a valid amount greater than 0"]
        | some a =>
          if a ≤ 0 then [.alertMsg "Please enter a valid amount greater than 0"]
          else
            [.setLoading true, .setError none] ++
              handleSendPromptTryBody env ++ [.setLoading false]

/-- The constant `LAMPORTS_PER_SOL` of `@solana/web3.js`, over exact rationals. -/
def LAMPORTS_PER_SOL : ℚ := 1000000000

/-- The balance conversion of `getBalance` (`src/src/App.jsx` line 39 and
identically in the other variants): `setBalance(bal / LAMPORTS_PER_SOL)`
for a whole-lamport balance `bal`. -/
def getBalanceSol (bal : ℤ) : ℚ :=
  (bal : ℚ) / LAMPORTS_PER_SOL

/-- JavaScript `Math.round`: round half toward positive infinity. -/
def jsRound (q : ℚ) : ℤ :=
  ⌊q + 1 / 2⌋

/-- The lamports value submitted by `handleSend` of `src/unnamed/part_000`
line 183: `Math.round(amount * LAMPORTS_PER_SOL)`. -/
def transferLamports (a : ℚ) : ℚ :=
  (jsRound (a * LAMPORTS_PER_SOL) : ℚ)

/-- The lamports value submitted by the other variants
(`src/src/App.jsx` line 156, `src/unnamed/part_001` line 193,
`src/unnamed/part_002` line 184): `amount * LAMPORTS_PER_SOL`, unrounded. -/
def transferLamportsDirect (a : ℚ) : ℚ :=
  a * LAMPORTS_PER_SOL

/-- The balance-fetch part of `getBalance` (`src/src/App.jsx` lines 35-44):
returns early without events when no wallet is connected, otherwise reads
the balance and either stores it converted to SOL or stores the fetch
error. -/
def getBalanceEvents (pk : Bool) (balRes : Except String ℤ) : List SendEvent :=
  if pk = false then []
  else
    .net .balanceReq ::
    (match balRes with
     | .ok bal => [.setBalance (getBalanceSol bal)]
     | .error _ => [.setError (some "Failed to fetch balance")])

/-- Network oracle for `requestAirdrop` of `src/src/App.jsx`: the airdrop
request outcome, the confirmation outcome, and the balance read performed
by the nested `getBalance` call. -/
structure AirdropEnv where
  airdropRes : Except String String
  confirmErr : Option String
  balRes : Except String ℤ

/-- The try/catch part of `requestAirdrop` in `src/src/App.jsx` lines
68-79: request the airdrop, confirm it `'finalized'`, refresh the balance
(whose own errors are caught inside `getBalance`), and alert; the catch
block stores the error.  The interpolated amount of the success alert is
elided. -/
def requestAirdropTryBody (env : AirdropEnv) : List SendEvent :=
  .net .airdropReq ::
  (match env.airdropRes with
   | .error _ => [.setError (some "Failed to request airdrop")]
   | .ok _ =>
     .net .confirmSig ::
     (match env.confirmErr with
      | some _ => [.setError (some "Failed to request airdrop")]
      | none =>
        getBalanceEvents true env.balRes ++
          [.alertMsg "Successfully airdropped SOL!"]))

/-- Embedding of `requestAirdrop` of `src/src/App.jsx` lines 46-83, assembled from the
validations (wallet connected, `parseFloat` not `NaN`, amount positive —
each returning before `setLoading(true)`) and the try/catch body
`requestAirdropTryBody`; `finally` always runs `setLoading(false)`. -/
def requestAirdrop (pk : Bool) (amountP : Option ℚ) (env : AirdropEnv) :
    List SendEvent :=
  if pk = false then [.alertMsg "Please connect your wallet first."]
  else
    match amountP with
    | none => [.alertMsg "Please enter a valid amount"]
    | some a =>
      if a ≤ 0 then [.alertMsg "Amount must be greater than 0"]
      else
        [.setLoading true, .setError none] ++ requestAirdropTryBody env ++
          [.setLoading false]

/-- A hexadecimal digit character, lowercase, as produced both by
JavaScript `Number.prototype.toString(16)` and by Node's `Buffer` hex
encoding. -/
def hexDigit (n : Nat) : Char :=
  if n < 10 then Char.ofNat (48 + n) else Char.ofNat (87 + n)

/-- Base-16 digit expansion (most significant first) with fuel. -/
def toHexAux : Nat → Nat → List Char
  | 0, _ => []
  | fuel + 1, n =>
    if n = 0 then [] else toHexAux fuel (n / 16) ++ [hexDigit (n % 16)]

/-- JavaScript `b.toString(16)` for a non-negative integer `b`. -/
def jsToStringHex (n : Nat) : String :=
  if n = 0 then "0" else String.mk (toHexAux (n + 1) n)

/-- JavaScript `s.padStart(2, '0')`. -/
def padStart2 (s : String) : String :=
  if s.length < 2 then String.mk (List.replicate (2 - s.length) '0' ++ s.data)
  else s

/-- Embedding of `list.map(f).join('')`. -/
def concatMapStr (f : α → String) : List α → String
  | [] => ""
  | a :: as => f a ++ concatMapStr f as

/-- The manual hex encoding of `handleSignMessage` in
`src/unnamed/part_002` lines 248-250:
`Array.from(signature).map(b => b.toString(16).padStart(2, '0')).join('')`. -/
def manualHex (bytes : List Nat) : String :=
  concatMapStr (fun b => padStart2 (jsToStringHex b)) bytes

/-- The `Buffer.from(sig).toString("hex")` encoding used by the other
variants (`src/unnamed/part_000` line 344): two lowercase hex digits per
byte, high nibble first.  Modelled from Node's documented `Buffer` hex
semantics (the library is external to this repository). -/
def bufferHex (bytes : List Nat) : String :=
  concatMapStr (fun b => String.mk [hexDigit (b / 16), hexDigit (b % 16)]) bytes

/-- Oracle for `handleSignMessage`: the `signMessage` wallet call either
returns the signature bytes or throws. -/
structure SignEnv where
  signRes : Except String (List Nat)

/-- The try/catch part of `handleSignMessage` in `src/unnamed/part_002`
lines 245-255: sign the encoded message and store the manually
hex-encoded signature; the catch block stores the error. -/
def handleSignMessageTryBody (env : SignEnv) : List SendEvent :=
  .net .signReq ::
  (match env.signRes with
   | .ok sig => [.setSignature (manualHex sig)]
   | .error _ => [.setError (some "Failed to sign message")])

/-- Embedding of `handleSignMessage` of `src/unnamed/part_002` lines 231-259.
Validations (wallet connected, `message.trim()` nonempty) run before
`setLoading(true)`; then `setLoading(true)`, `setError(null)`, the
try/catch body, and the `finally` clause `setLoading(false)`. -/
def handleSignMessage (pk : Bool) (message : String) (env : SignEnv) :
    List SendEvent :=
  if pk = false then [.alertMsg "Please connect your wallet first."]
  else if message.trim = "" then [.alertMsg "Please enter a message to sign"]
  else
    [.setLoading true, .setError none] ++ handleSignMessageTryBody env ++
      [.setLoading false]

/-- A concrete network oracle for the retry-variant transfer handler. -/
def envSendA : SendEnv :=
  ⟨none, lease1, Except.ok "sig", att1, constLease, zeroDur⟩

/-- A concrete network oracle for the prompt-variant transfer handler. -/
def envPromptA : SendPromptEnv :=
  ⟨none, Except.ok "sig", none⟩

/-- A clean confirmation inside the budget returns `'success'` at once. -/
theorem confirmLoopF_success (att : Nat → Attempt) (leases : Nat → Lease)
    (dur : Nat → Nat) (timeout ri fuel n : Nat) (lease : Lease) (elapsed : Nat)
    (hlt : elapsed < timeout) (hat : att n = .confirmed none) :
    confirmLoopF att leases dur timeout ri fuel n lease elapsed =
      some (.success, [.confirmPoll lease]) := by
  cases fuel <;> simp [confirmLoopF, hlt, hat]

/-- A thrown error matching no retry substring is rethrown at once, with no
further polling. -/
theorem confirmLoopF_fatal (att : Nat → Attempt) (leases : Nat → Lease)
    (dur : Nat → Nat) (timeout ri fuel n : Nat) (lease : Lease) (elapsed : Nat)
    (m : String) (hlt : elapsed < timeout) (hat : att n = .threw m)
    (hm : isRetryable m = false) :
    confirmLoopF att leases dur timeout ri fuel n lease elapsed =
      some (.fatal m, [.confirmPoll lease]) := by
  cases fuel <;> simp [confirmLoopF, hlt, hat, hm]

/-- A retryable error fetches exactly one replacement lease and continues
with the same deadline, the elapsed time advanced by the attempt duration
plus the sleep. -/
theorem confirmLoopF_retryStep (att : Nat → Attempt) (leases : Nat → Lease)
    (dur : Nat → Nat) (timeout ri f n : Nat) (lease : Lease) (elapsed : Nat)
    (m : String) (hlt : elapsed < timeout) (hat : att n = .threw m)
    (hm : isRetryable m = true) :
    confirmLoopF att leases dur timeout ri (f + 1) n lease elapsed =
      (confirmLoopF att leases dur timeout ri f (n + 1) (leases n)
          (elapsed + dur n + ri)).map
        (fun r => (r.1, .confirmPoll lease :: .fetchBlockhash :: r.2)) := by
  simp [confirmLoopF, hlt, hat, hm]

/-- Once the elapsed time reaches the deadline the loop returns
`'timeout'` without polling again. -/
theorem confirmLoopF_deadline (att : Nat → Attempt) (leases : Nat → Lease)
    (dur : Nat → Nat) (timeout ri fuel n : Nat) (lease : Lease) (elapsed : Nat)
    (hge : timeout ≤ elapsed) :
    confirmLoopF att leases dur timeout ri fuel n lease elapsed =
      some (.timeout, []) := by
  have hlt : ¬ elapsed < timeout := by omega
  cases fuel <;> simp [confirmLoopF, hlt]

/-- If every attempt outcome is a retryable error, the loop runs out the
budget and returns `'timeout'` (fuel `timeout + 1 - elapsed` or more is
enough when the retry interval is positive). -/
theorem confirmLoopF_allRetryable (att : Nat → Attempt) (leases : Nat → Lease)
    (dur : Nat → Nat) (timeout ri : Nat) (hri : 1 ≤ ri)
    (hall : ∀ k, attemptRetryable (att k) = true) :
    ∀ fuel n lease elapsed, timeout + 1 ≤ fuel + elapsed →
      ∃ ops, confirmLoopF att leases dur timeout ri fuel n lease elapsed =
        some (.timeout, ops) := by
  intro fuel
  induction fuel with
  | zero =>
    intro n lease elapsed hf
    exact ⟨[], confirmLoopF_deadline att leases dur timeout ri 0 n lease elapsed
      (by omega)⟩
  | succ f ih =>
    intro n lease elapsed hf
    by_cases hl : elapsed < timeout
    · have h := hall n
      cases hat : att n with
      | confirmed e =>
        rw [hat] at h
        simp [attemptRetryable] at h
      | threw m =>
        rw [hat] at h
        simp only [attemptRetryable] at h
        obtain ⟨ops, hops⟩ := ih (n + 1) (leases n) (elapsed + dur n + ri)
          (by omega)
        refine ⟨.confirmPoll lease :: .fetchBlockhash :: ops, ?_⟩
        rw [confirmLoopF_retryStep att leases dur timeout ri f n lease elapsed m
          hl hat h, hops]
        rfl
    · exact ⟨[], confirmLoopF_deadline att leases dur timeout ri (f + 1) n lease
        elapsed (by omega)⟩

/-- With the source defaults the number of confirmation polls of any run is
bounded by the ceiling of `timeout / retryInterval`: the deadline fixed at
entry is never extended, so retries keep consuming the original budget. -/
theorem confirmLoopF_pollBound (att : Nat → Attempt) (leases : Nat → Lease)
    (dur : Nat → Nat) :
    ∀ fuel n lease elapsed,
      pollCount (confirmLoopF att leases dur 60000 2000 fuel n lease elapsed) ≤
        (60000 - elapsed + 1999) / 2000 := by
  intro fuel
  induction fuel with
  | zero =>
    intro n lease elapsed
    by_cases hl : elapsed < 60000
    · cases hat : att n with
      | confirmed e =>
        cases e <;>
          simp [confirmLoopF, hl, hat, pollCount, List.countP_cons, isPollOp,
            isRetryable, strContains, strFindSub, strHeadMatches] <;> omega
      | threw m =>
        by_cases hr : isRetryable m
        · simp [confirmLoopF, hl, hat, hr, pollCount]
        · simp [confirmLoopF, hl, hat, hr, pollCount, List.countP_cons,
            isPollOp]
          omega
    · simp [confirmLoopF, hl, pollCount]
  | succ f ih =>
    intro n lease elapsed
    by_cases hl : elapsed < 60000
    · cases hat : att n with
      | confirmed e =>
        cases e <;>
          simp [confirmLoopF, hl, hat, pollCount, List.countP_cons, isPollOp,
            isRetryable, strContains, strFindSub, strHeadMatches] <;> omega
      | threw m =>
        by_cases hr : isRetryable m
        · rw [confirmLoopF_retryStep att leases dur 60000 2000 f n lease elapsed
            m hl hat hr]
          have hrec := ih (n + 1) (leases n) (elapsed + dur n + 2000)
          cases hc : confirmLoopF att leases dur 60000 2000 f (n + 1) (leases n)
              (elapsed + dur n + 2000) with
          | none => simp [pollCount]
          | some r =>
            rw [hc] at hrec
            obtain ⟨res, ops⟩ := r
            simp only [pollCount, Option.map, List.countP_cons, isPollOp]
              at hrec ⊢
            norm_num at hrec ⊢
            omega
        · rw [confirmLoopF_fatal att leases dur 60000 2000 (f + 1) n lease
            elapsed m hl hat (by simpa using hr)]
          simp [pollCount, List.countP_cons, isPollOp]
          omega
    · rw [confirmLoopF_deadline att leases dur 60000 2000 (f + 1) n lease elapsed
        (by omega)]
      simp [pollCount]

/-- Unfolding equation for one iteration of the bounded-retry loop. -/
theorem sendLoop1_succ (att : Nat → Option String) (r i : Nat) :
    sendLoop1 att (r + 1) i =
      (match att i with
       | none => .successAlert
       | some m =>
         if strContains m "Blockhash" then sendLoop1 att r (i + 1)
         else .failureAlert m) := rfl

/-- Claim C1 (amended): when a confirmation attempt fails because the
blockhash lease has expired, the helper fetches exactly one replacement
lease for that expiry and polls confirmation again under the new lease
(after the retry sleep), without resubmitting the transaction — the
continuation trace adds exactly one `confirmPoll` and one `fetchBlockhash`
and no `sendTx`, and the deadline parameter is unchanged. -/
theorem claim_c1 (att : Nat → Attempt) (leases : Nat → Lease)
    (dur : Nat → Nat) (timeout ri f n : Nat) (lease : Lease) (elapsed : Nat)
    (m : String) (hlt : elapsed < timeout) (hat : att n = .threw m)
    (hm : isRetryable m = true) :
    confirmLoopF att leases dur timeout ri (f + 1) n lease elapsed =
      (confirmLoopF att leases dur timeout ri f (n + 1) (leases n)
          (elapsed + dur n + ri)).map
        (fun r => (r.1, .confirmPoll lease :: .fetchBlockhash :: r.2)) :=
  confirmLoopF_retryStep att leases dur timeout ri f n lease elapsed m hlt hat hm

/-- Claim C1, witness: the amended step equation at a concrete expired
lease. -/
theorem claim_c1_witness :
    confirmLoopF att1 constLease zeroDur 60000 2000 (60000 + 1) 0 lease1 0 =
      (confirmLoopF att1 constLease zeroDur 60000 2000 60000 1 (constLease 0)
          (0 + zeroDur 0 + 2000)).map
        (fun r => (r.1, .confirmPoll lease1 :: .fetchBlockhash :: r.2)) :=
  claim_c1 att1 constLease zeroDur 60000 2000 60000 0 lease1 0
    "Blockhash not found" (by decide) rfl rfl

/-- Claim C1, counterexample to the claim as stated: a run whose first
attempt fails with an expired lease fetches one replacement lease and then
polls again, but its full network trace contains no transaction
resubmission at all — the helper only ever receives the signature and never
calls `sendTransaction`. -/
theorem claim_c1_counterexample :
    confirmTransactionWithRetry att1 constLease zeroDur lease1 60000 2000 =
      some (.success, [.confirmPoll lease1, .fetchBlockhash, .confirmPoll lease2]) ∧
    List.countP (fun o => isSendOp o)
      [NetOp.confirmPoll lease1, NetOp.fetchBlockhash, NetOp.confirmPoll lease2]
      = 0 :=
  ⟨by decide, by decide⟩

/-- Claim C2: when every confirmation attempt fails with a retryable
(expired-lease) error — so no confirmation ever arrives while the loop
keeps polling — the helper returns the distinct `'timeout'` result under
the default 60000 ms budget with 2000 ms polling, and in particular never a
failure result. -/
theorem claim_c2 (att : Nat → Attempt) (leases : Nat → Lease)
    (dur : Nat → Nat) (lease : Lease)
    (hall : ∀ k, attemptRetryable (att k) = true) :
    (confirmTransactionWithRetry att leases dur lease 60000 2000).map
      Prod.fst = some .timeout ∧
    ∀ m, (confirmTransactionWithRetry att leases dur lease 60000 2000).map
      Prod.fst ≠ some (.fatal m) := by
  obtain ⟨ops, hops⟩ := confirmLoopF_allRetryable att leases dur 60000 2000
    (by omega) hall (60000 + 1) 0 lease 0 (by omega)
  unfold confirmTransactionWithRetry
  rw [hops]
  exact ⟨rfl, fun m => by simp⟩

/-- Claim C2, witness: every attempt throwing `'blockhash expired'`. -/
theorem claim_c2_witness :
    (confirmTransactionWithRetry attAllExpired constLease zeroDur lease1 60000
        2000).map Prod.fst = some .timeout ∧
    ∀ m, (confirmTransactionWithRetry attAllExpired constLease zeroDur lease1
        60000 2000).map Prod.fst ≠ some (.fatal m) :=
  claim_c2 attAllExpired constLease zeroDur lease1 (fun _ => rfl)

/-- Claim C3: a confirmation error whose message matches no expired-lease
substring makes the helper rethrow immediately: the result is the failure
carrying that message and the remaining trace holds exactly the one poll
that raised it — no further polling happens after the error.  (A
confirmation that resolves with `value.err` set raises
`Error('Transaction failed')`, whose message also matches no retry
substring, and takes this same path.) -/
theorem claim_c3 (att : Nat → Attempt) (leases : Nat → Lease)
    (dur : Nat → Nat) (timeout ri fuel n : Nat) (lease : Lease)
    (elapsed : Nat) (m : String) (hlt : elapsed < timeout)
    (hat : att n = .threw m) (hm : isRetryable m = false) :
    confirmLoopF att leases dur timeout ri fuel n lease elapsed =
      some (.fatal m, [.confirmPoll lease]) :=
  confirmLoopF_fatal att leases dur timeout ri fuel n lease elapsed m hlt hat hm

/-- Claim C3, witness: a non-retryable program error aborts the whole run
at the first poll. -/
theorem claim_c3_witness :
    confirmLoopF attFatal constLease zeroDur 60000 2000 (60000 + 1) 0 lease1 0 =
      some (.fatal "custom program error: 0x1", [.confirmPoll lease1]) :=
  claim_c3 attFatal constLease zeroDur 60000 2000 (60000 + 1) 0 lease1 0
    "custom program error: 0x1" (by decide) rfl rfl

/-- Claim C5: the deadline is fixed when the loop is entered
(`startTime = Date.now()`) and an expired-lease retry never extends it:
whatever the attempt outcomes, replacement leases and attempt durations,
a run with the default budget performs at most
`timeout / retryInterval + 1 = 31` confirmation polls. -/
theorem claim_c5 (att : Nat → Attempt) (leases : Nat → Lease)
    (dur : Nat → Nat) (lease : Lease) :
    pollCount (confirmTransactionWithRetry att leases dur lease 60000 2000) ≤
      60000 / 2000 + 1 := by
  have h := confirmLoopF_pollBound att leases dur (60000 + 1) 0 lease 0
  unfold confirmTransactionWithRetry
  omega

/-- Claim C6, counterexample to the claim as stated: the bounded-retry
variant (`src/unnamed/part_001` line 215) retries on any message containing
`'Blockhash'`; the message `'Blockhash mismatch'` contains neither
`'Blockhash not found'` nor `'blockhash expired'`, yet that loop retries it
(and here succeeds on the next iteration) instead of propagating it to the
caller as fatal. -/
theorem claim_c6_counterexample :
    strContains "Blockhash mismatch" "Blockhash not found" = false ∧
    strContains "Blockhash mismatch" "blockhash expired" = false ∧
    handleSendBounded (oneErrSend "Blockhash mismatch") = .successAlert :=
  ⟨by decide, by decide, by decide⟩

/-- Claim C6 (amended): `confirmTransactionWithRetry` classifies a
confirmation error as retryable exactly when its message contains
`'Blockhash not found'` or `'blockhash expired'`, propagating every other
error as fatal; the bounded-retry variant of `part_001` instead retries
exactly when the message contains `'Blockhash'`, surfacing every other
error as a failure. -/
theorem claim_c6 (m : String) :
    (isRetryable m =
      (strContains m "Blockhash not found" ||
        strContains m "blockhash expired")) ∧
    (isRetryable m = false →
      (confirmTransactionWithRetry (oneErrAtt m) constLease zeroDur lease1
          60000 2000).map Prod.fst = some (.fatal m)) ∧
    (isRetryable m = true →
      (confirmTransactionWithRetry (oneErrAtt m) constLease zeroDur lease1
          60000 2000).map Prod.fst = some .success) ∧
    (strContains m "Blockhash" = false →
      handleSendBounded (oneErrSend m) = .failureAlert m) ∧
    (strContains m "Blockhash" = true →
      handleSendBounded (oneErrSend m) = .successAlert) := by
  refine ⟨rfl, fun h => ?_, fun h => ?_, fun h => ?_, fun h => ?_⟩
  · unfold confirmTransactionWithRetry
    rw [confirmLoopF_fatal (oneErrAtt m) constLease zeroDur 60000 2000
      (60000 + 1) 0 lease1 0 m (by omega) rfl h]
    rfl
  · unfold confirmTransactionWithRetry
    rw [confirmLoopF_retryStep (oneErrAtt m) constLease zeroDur 60000 2000
      60000 0 lease1 0 m (by omega) rfl h,
      confirmLoopF_success (oneErrAtt m) constLease zeroDur 60000 2000
      60000 1 (constLease 0) (0 + zeroDur 0 + 2000) (by decide) rfl]
    rfl
  · unfold handleSendBounded
    show sendLoop1 (oneErrSend m) (2 + 1) 0 = .failureAlert m
    rw [sendLoop1_succ]
    simp [oneErrSend, h]
  · unfold handleSendBounded
    show sendLoop1 (oneErrSend m) (2 + 1) 0 = .successAlert
    rw [sendLoop1_succ]
    simp only [oneErrSend, if_pos rfl, h, if_true]
    show sendLoop1 (oneErrSend m) (1 + 1) 1 = .successAlert
    rw [sendLoop1_succ]
    simp [oneErrSend]

/-- Claim C6, witness: the amended classification at two concrete
messages. -/
theorem claim_c6_witness :
    (confirmTransactionWithRetry (oneErrAtt "Blockhash not found") constLease
        zeroDur lease1 60000 2000).map Prod.fst = some .success ∧
    handleSendBounded (oneErrSend "custom program error: 0x1") =
      .failureAlert "custom program error: 0x1" :=
  ⟨(claim_c6 "Blockhash not found").2.2.1 rfl,
   (claim_c6 "custom program error: 0x1").2.2.2.1 rfl⟩

/-- Claim C7: in the bounded-retry variant of `src/unnamed/part_001`,
three consecutive attempts throwing a `'Blockhash'` error exhaust the
retries: the `while` guard fails, control falls out of the `try` block,
and the handler returns through `finally` with nothing surfaced — neither
a success alert, nor a failure alert, nor `setError`.  This contradicts
the claim that exhausting all retries still surfaces some outcome. -/
theorem claim_c7 :
    handleSendBounded (fun _ => some "Blockhash not found") = .silent := by
  decide

/-- Claim C8, counterexample to the claim as stated: the retry variant
(`src/unnamed/part_000` line 183) submits `Math.round(a * LAMPORTS_PER_SOL)`,
which differs from `a * LAMPORTS_PER_SOL` at the positive amount
`a = 1 / 2000000000` SOL (half a lamport rounds up to one). -/
theorem claim_c8_counterexample :
    (0 : ℚ) < 1 / 2000000000 ∧
    transferLamports (1 / 2000000000) ≠
      transferLamportsDirect (1 / 2000000000) := by
  refine ⟨by norm_num, ?_⟩
  have h1 : (1 / 2000000000 : ℚ) * LAMPORTS_PER_SOL = 1 / 2 := by
    norm_num [LAMPORTS_PER_SOL]
  simp only [transferLamports, transferLamportsDirect, jsRound, h1]
  have h2 : ((1 : ℚ) / 2 + 1 / 2) = 1 := by norm_num
  rw [h2, Int.floor_one]
  norm_num

/-- Claim C8 (amended): amount fields convert between SOL and lamports by
multiplying or dividing by `LAMPORTS_PER_SOL`, and in exact arithmetic the
balance conversion round-trips; the variants without `Math.round` submit
exactly `a * LAMPORTS_PER_SOL`, while the retry variant submits
`Math.round(a * LAMPORTS_PER_SOL)`, which equals `a * LAMPORTS_PER_SOL`
whenever that product is a whole number of lamports. -/
theorem claim_c8 :
    (∀ b : ℤ, getBalanceSol b * LAMPORTS_PER_SOL = (b : ℚ)) ∧
    (∀ a : ℚ, transferLamportsDirect a = a * LAMPORTS_PER_SOL) ∧
    (∀ (a : ℚ) (z : ℤ), a * LAMPORTS_PER_SOL = (z : ℚ) →
      transferLamports a = a * LAMPORTS_PER_SOL) := by
  refine ⟨fun b => ?_, fun a => rfl, fun a z h => ?_⟩
  · simp only [getBalanceSol]
    rw [div_mul_cancel₀]
    norm_num [LAMPORTS_PER_SOL]
  · simp only [transferLamports, jsRound, h]
    rw [Int.floor_int_add]
    norm_num [Int.floor_eq_zero_iff, Set.mem_Ico]

/-- Claim C8, witness: the round-trip at a concrete balance and the
rounded submission at a concrete whole-lamport amount. -/
theorem claim_c8_witness :
    getBalanceSol 5 * LAMPORTS_PER_SOL = (5 : ℚ) ∧
    transferLamports 2 = 2 * LAMPORTS_PER_SOL :=
  ⟨claim_c8.1 5,
   claim_c8.2.2 2 2000000000 (by norm_num [LAMPORTS_PER_SOL])⟩

/-- The function `loadingWrites` distributes over concatenation. -/
theorem loadingWrites_append (xs ys : List SendEvent) :
    loadingWrites (xs ++ ys) = loadingWrites xs ++ loadingWrites ys := by
  simp [loadingWrites]

/-- Network calls carry no `setLoading` write. -/
theorem loadingWrites_map_net (ops : List NetOp) :
    loadingWrites (ops.map SendEvent.net) = [] := by
  induction ops with
  | nil => rfl
  | cons o os ih =>
    simp only [loadingWrites, List.map_cons, List.filterMap_cons, loadVal]
    exact ih

/-- A main-path handler run — `setLoading(true)`, `setError(null)`, a
try/catch body with no loading write, then the `finally` clause — writes
exactly `[true, false]` to the loading flag. -/
theorem loadingWrites_wrap (body : List SendEvent)
    (h : loadingWrites body = []) :
    loadingWrites ([.setLoading true, .setError none] ++ body ++
      [.setLoading false]) = [true, false] := by
  rw [loadingWrites_append, loadingWrites_append, h]
  rfl

/-- The try/catch body of the retry-variant transfer handler never writes
the loading flag. -/
theorem loadingWrites_handleSendTryBody (env : SendEnv) :
    loadingWrites (handleSendTryBody env) = [] := by
  unfold handleSendTryBody
  cases env.bhErr with
  | some m => rfl
  | none =>
    cases env.sendRes with
    | error e => rfl
    | ok sig =>
      cases hc : confirmTransactionWithRetry env.att env.leases env.dur
          env.lease0 60000 2000 with
      | none => rfl
      | some r =>
        obtain ⟨res, ops⟩ := r
        have hm := loadingWrites_map_net ops
        cases res <;>
          · simp only [loadingWrites, List.filterMap_cons, List.filterMap_append,
              loadVal, loadingWrites] at hm ⊢
            simp [hm]

/-- The try/catch body of the prompt-variant transfer handler never writes
the loading flag. -/
theorem loadingWrites_handleSendPromptTryBody (env : SendPromptEnv) :
    loadingWrites (handleSendPromptTryBody env) = [] := by
  unfold handleSendPromptTryBody
  cases env.bhErr with
  | some m => rfl
  | none =>
    cases env.sendRes with
    | error e => rfl
    | ok sig => cases env.confirmErr <;> rfl

/-- The try/catch body of the airdrop handler never writes the loading
flag. -/
theorem loadingWrites_requestAirdropTryBody (env : AirdropEnv) :
    loadingWrites (requestAirdropTryBody env) = [] := by
  unfold requestAirdropTryBody
  cases env.airdropRes with
  | error e => rfl
  | ok sig =>
    cases env.confirmErr with
    | some m => rfl
    | none =>
      unfold getBalanceEvents
      cases env.balRes <;> rfl

/-- The try/catch body of the message-sign handler never writes the
loading flag. -/
theorem loadingWrites_handleSignMessageTryBody (env : SignEnv) :
    loadingWrites (handleSignMessageTryBody env) = [] := by
  unfold handleSignMessageTryBody
  cases env.signRes <;> rfl

/-- Claim C4: whenever the amount fails validation (`NaN` or non-positive)
or the recipient address is invalid, both transfer handler variants return
before issuing any network call: no blockhash fetch, no submission, no
confirmation appears in the run. -/
theorem claim_c4 (pk : Bool) (amountP : Option ℚ) (toValid : Bool)
    (toP : Option String) (env : SendEnv) (envP : SendPromptEnv)
    (hbad : (∀ a, amountP = some a → a ≤ 0) ∨ toValid = false) :
    networkCalls (handleSend pk amountP toValid env) = [] ∧
    networkCalls (handleSendPrompt pk toP toValid amountP envP) = [] := by
  constructor
  · cases pk with
    | false => rfl
    | true =>
      cases amountP with
      | none => rfl
      | some a =>
        by_cases ha : a ≤ 0
        · simp [handleSend, ha, networkCalls, netVal]
        · rcases hbad with hba | htv
          · exact absurd (hba a rfl) ha
          · simp [handleSend, ha, htv, networkCalls, netVal]
  · cases pk with
    | false => rfl
    | true =>
      cases toP with
      | none => rfl
      | some t =>
        by_cases ht : t = ""
        · simp [handleSendPrompt, ht, networkCalls, netVal]
        · rcases hbad with hba | htv
          · by_cases htv2 : toValid = false
            · simp [handleSendPrompt, ht, htv2, networkCalls, netVal]
            · cases amountP with
              | none => simp [handleSendPrompt, ht, htv2, networkCalls, netVal]
              | some a =>
                have ha : a ≤ 0 := hba a rfl
                simp [handleSendPrompt, ht, htv2, ha, networkCalls, netVal]
          · simp [handleSendPrompt, ht, htv, networkCalls, netVal]

/-- Claim C4, witness: a `NaN` amount is rejected by both variants with no
network call. -/
theorem claim_c4_witness :
    networkCalls (handleSend true none true envSendA) = [] ∧
    networkCalls (handleSendPrompt true (some "addr") true none envPromptA)
      = [] :=
  claim_c4 true none true (some "addr") envSendA envPromptA
    (Or.inl (fun _ h => nomatch h))

/-- Claim C9: each of the three loading-flag handlers — the transfer
handler of `part_000`, the airdrop handler of `App.jsx`, and the
message-sign handler of `part_002` — either returns on a validation path
without touching the loading flag, or writes exactly
`setLoading(true)` followed (through every try/catch/finally path,
including thrown errors and confirmation timeouts) by `setLoading(false)`.
In particular, whenever the flag was false on entry it is false again when
the handler returns. -/
theorem claim_c9 :
    (∀ (pk : Bool) (amountP : Option ℚ) (toValid : Bool) (env : SendEnv),
      loadingWrites (handleSend pk amountP toValid env) = [] ∨
      loadingWrites (handleSend pk amountP toValid env) = [true, false]) ∧
    (∀ (pk : Bool) (amountP : Option ℚ) (env : AirdropEnv),
      loadingWrites (requestAirdrop pk amountP env) = [] ∨
      loadingWrites (requestAirdrop pk amountP env) = [true, false]) ∧
    (∀ (pk : Bool) (message : String) (env : SignEnv),
      loadingWrites (handleSignMessage pk message env) = [] ∨
      loadingWrites (handleSignMessage pk message env) = [true, false]) := by
  refine ⟨fun pk amountP toValid env => ?_, fun pk amountP env => ?_,
    fun pk message env => ?_⟩
  · cases pk with
    | false => exact Or.inl rfl
    | true =>
      cases amountP with
      | none => exact Or.inl rfl
      | some a =>
        by_cases ha : a ≤ 0
        · exact Or.inl (by simp [handleSend, ha, loadingWrites, loadVal])
        · by_cases htv : toValid = false
          · exact Or.inl
              (by simp [handleSend, ha, htv, loadingWrites, loadVal])
          · exact Or.inr (by
              simpa [handleSend, ha, htv] using
                loadingWrites_wrap (handleSendTryBody env)
                  (loadingWrites_handleSendTryBody env))
  · cases pk with
    | false => exact Or.inl rfl
    | true =>
      cases amountP with
      | none => exact Or.inl rfl
      | some a =>
        by_cases ha : a ≤ 0
        · exact Or.inl (by simp [requestAirdrop, ha, loadingWrites, loadVal])
        · exact Or.inr (by
            simpa [requestAirdrop, ha] using
              loadingWrites_wrap (requestAirdropTryBody env)
                (loadingWrites_requestAirdropTryBody env))
  · cases pk with
    | false => exact Or.inl rfl
    | true =>
      by_cases hm : message.trim = ""
      · exact Or.inl
          (by simp [handleSignMessage, hm, loadingWrites, loadVal])
      · exact Or.inr (by
          simpa [handleSignMessage, hm] using
            loadingWrites_wrap (handleSignMessageTryBody env)
              (loadingWrites_handleSignMessageTryBody env))

set_option maxRecDepth 16384 in
/-- Every byte below 256 encodes to the same two lowercase hex digits under
the manual padded `toString(16)` encoding and the two-nibble `Buffer`
encoding. -/
theorem hexByte : ∀ b, b < 256 →
    padStart2 (jsToStringHex b) =
      String.mk [hexDigit (b / 16), hexDigit (b % 16)] := by
  decide

/-- Claim C10: for every byte array, the manual hex encoding of
`part_002` (`b.toString(16).padStart(2, '0')`, concatenated) equals the
`Buffer.from(sig).toString('hex')` encoding used by the other variants. -/
theorem claim_c10 (bytes : List Nat) (h : ∀ b ∈ bytes, b < 256) :
    manualHex bytes = bufferHex bytes := by
  induction bytes with
  | nil => rfl
  | cons b bs ih =>
    have hb : b < 256 := h b (List.mem_cons_self b bs)
    have hbs : ∀ x ∈ bs, x < 256 := fun x hx => h x (List.mem_cons_of_mem b hx)
    show padStart2 (jsToStringHex b) ++ manualHex bs =
      String.mk [hexDigit (b / 16), hexDigit (b % 16)] ++ bufferHex bs
    rw [hexByte b hb, ih hbs]

/-- Claim C10, witness: the two encodings agree on a concrete signature. -/
theorem claim_c10_witness :
    (∀ b ∈ [0, 9, 10, 15, 16, 171, 255], b < 256) ∧
    manualHex [0, 9, 10, 15, 16, 171, 255] =
      bufferHex [0, 9, 10, 15, 16, 171, 255] :=
  ⟨by decide, claim_c10 [0, 9, 10, 15, 16, 171, 255] (by decide)⟩
